import Mathlib

/-!
Shallow embedding of the RESTCore HTTP client/server core
(`src/src/Client.cpp`, `src/src/HTTPClient.cpp`, `src/HTTPServerHost.cpp`).

The transport layer (Boost.Asio sockets, Beast parser internals) is the
external collaborator: it is abstracted as sequences of read results handed
to the loops that the repository code runs.  Every definition below mirrors
one function or code region of the repository; the theorems at the end of
the file settle the frozen claims about that code.
-/

namespace RESTCore

/-- Error codes observable from a `read_some` / `write` call, as the client
code distinguishes them (`http::error::end_of_stream`,
`http::error::need_buffer`, success, anything else). -/
inductive Ec where
  | ok
  | needBuffer
  | endOfStream
  | other (msg : String)
deriving DecidableEq, Repr

/-- The text carried by a beast error code (`ec.message()`), abstracted. -/
def Ec.message : Ec → String
  | .ok => "Success"
  | .needBuffer => "need buffer"
  | .endOfStream => "end of stream"
  | .other m => m

/-- One `on_chunk(bytes, done)` invocation observed by the caller of a
streaming request (`ChunkCallback` in `Client.hpp`). -/
structure ChunkEvent where
  data : String
  final : Bool
deriving DecidableEq, Repr

/-- One `http::read_some` call inside the chunked branch of
`Connection::stream_request` (Client.cpp lines 254-266): the decoded body
pieces delivered to `chunk_body_cb` during the call, the resulting error
code, and whether `parser.is_done()` holds afterwards. -/
structure ChunkedRead where
  pieces : List String
  ec : Ec
  doneAfter : Bool
deriving DecidableEq, Repr

/-- The `on_chunk` invocations produced by `chunk_body_cb`
(Client.cpp lines 234-240) for the pieces of one read: every non-empty
piece is forwarded with `done = false`; empty pieces are dropped. -/
def emitPieces (ps : List String) : List ChunkEvent :=
  (ps.filter (fun p => p ≠ "")).map (fun p => { data := p, final := false })

/-- How the body loop of a streaming request ended. -/
inductive StreamEnd where
  | completed
  | eos
  | errored (e : Ec)
  | starved
deriving DecidableEq, Repr

/-- The chunked-mode body loop of `Connection::stream_request`
(Client.cpp lines 254-266): `while (!parser.is_done())` read; on
`end_of_stream` set `saw_end_of_stream` and break; on any other error that
is not `need_buffer` throw; otherwise continue until the parser is done.
Returns the `on_chunk` events fired so far and how the loop ended; an
exhausted read list while the parser still wants data is `starved`
(the real loop would still be blocking on the socket). -/
def chunkedLoop : List ChunkedRead → List ChunkEvent × StreamEnd
  | [] => ([], StreamEnd.starved)
  | r :: rs =>
    let evs := emitPieces r.pieces
    if r.ec = Ec.endOfStream then
      (evs, StreamEnd.eos)
    else if r.ec ≠ Ec.ok ∧ r.ec ≠ Ec.needBuffer then
      (evs, StreamEnd.errored r.ec)
    else if r.doneAfter then
      (evs, StreamEnd.completed)
    else
      let rest := chunkedLoop rs
      (evs ++ rest.1, rest.2)

/-- The decoded body pieces actually consumed by `chunkedLoop` before it
stopped (reference value for stating what the decoded body is). -/
def consumedPieces : List ChunkedRead → List String
  | [] => []
  | r :: rs =>
    if r.ec = Ec.endOfStream then r.pieces
    else if r.ec ≠ Ec.ok ∧ r.ec ≠ Ec.needBuffer then r.pieces
    else if r.doneAfter then r.pieces
    else r.pieces ++ consumedPieces rs

/-- Full chunked branch including the terminal callback: after the loop
exits via a terminal chunk (`is_done`) or a tolerated end-of-stream,
`on_chunk(std::string_view{}, true)` fires exactly once
(Client.cpp line 267). On a thrown error or starvation no final event
fires. -/
def chunkedStreamEvents (rs : List ChunkedRead) : List ChunkEvent × StreamEnd :=
  match chunkedLoop rs with
  | (evs, StreamEnd.completed) => (evs ++ [{ data := "", final := true }], StreamEnd.completed)
  | (evs, StreamEnd.eos) => (evs ++ [{ data := "", final := true }], StreamEnd.eos)
  | other => other

/-- Concatenation of the payloads of the non-final events. -/
def concatNonFinal (evs : List ChunkEvent) : String :=
  String.join ((evs.filter (fun ev => ev.final = false)).map ChunkEvent.data)

/-- One `http::read_some` call inside the fixed-length branch of
`Connection::stream_request` (Client.cpp lines 269-299): the bytes placed
into the 8192-byte window (abstracted as the string `data`), the resulting
error code, and whether `parser.is_done()` holds after the read. -/
structure FixedRead where
  data : String
  ec : Ec
  doneAfter : Bool
deriving DecidableEq, Repr

/-- Outcome of the fixed-length body loop: the `on_chunk` events fired, the
error thrown if any, whether `saw_end_of_stream` was set, and whether the
read list ran out while the parser still wanted data. -/
structure FixedResult where
  events : List ChunkEvent
  thrown : Option Ec
  sawEos : Bool
  starved : Bool
deriving DecidableEq, Repr

/-- The fixed-length body loop of `Connection::stream_request`
(Client.cpp lines 272-296): on `end_of_stream` record `saw_end_of_stream`
(no throw); on any other error that is not `need_buffer` throw; then
`on_chunk(window, done)` fires exactly when bytes were read or the parser
reports done; the loop breaks when done or end-of-stream was seen. -/
def fixedLoop : List FixedRead → FixedResult
  | [] => { events := [], thrown := none, sawEos := false, starved := true }
  | r :: rs =>
    if r.ec = Ec.endOfStream then
      { events :=
          if 0 < r.data.length ∨ r.doneAfter = true then
            [{ data := r.data, final := r.doneAfter }]
          else [],
        thrown := none, sawEos := true, starved := false }
    else if r.ec ≠ Ec.ok ∧ r.ec ≠ Ec.needBuffer then
      { events := [], thrown := some r.ec, sawEos := false, starved := false }
    else if r.doneAfter = true then
      { events := [{ data := r.data, final := true }],
        thrown := none, sawEos := false, starved := false }
    else
      let rest := fixedLoop rs
      { events :=
          (if 0 < r.data.length then [{ data := r.data, final := false }] else []) ++ rest.events,
        thrown := rest.thrown, sawEos := rest.sawEos, starved := rest.starved }

/-! ### Client connection state

`RESTCore::Client::Connection` owns one socket; the embedding keeps the two
observables the claims talk about: `is_open()` and `last_close_reason()`.
A freshly constructed connection (constructor succeeded) is open with an
empty close reason. -/

/-- Observable state of a `Client::Connection`. -/
structure Connection where
  isOpen : Bool
  closeReason : String
deriving DecidableEq, Repr

/-- State of a connection right after a successful constructor run
(Client.cpp lines 33-61: `close_reason_()` default-initialised empty,
socket connected). -/
def Connection.fresh : Connection :=
  { isOpen := true, closeReason := "" }

/-- `Connection::close(reason)` (Client.cpp lines 98-128): tear the
transport down, then record the reason — the supplied one, or the default
text `"Connection closed"` when the connection was actually open and no
reason was given; a non-empty reason is recorded even on an already-closed
connection, an empty one then leaves the stored reason alone. -/
def Connection.close (c : Connection) (reason : String) : Connection :=
  let wasOpen := c.isOpen
  { isOpen := false,
    closeReason :=
      if wasOpen = true then
        if reason ≠ "" then reason else "Connection closed"
      else
        if reason ≠ "" then reason else c.closeReason }

/-- The message built for the closed-connection precondition failure
(Client.cpp lines 138-143 and 201-206). -/
def closedErrorMessage (c : Connection) : String :=
  if c.closeReason = "" then "Connection is closed"
  else "Connection is closed: " ++ c.closeReason

/-- Diagnostic for a peer that closed mid-exchange
(Client.cpp lines 172-174 and 315-317). -/
def peerClosedMessage (e : Ec) : String :=
  "Peer closed the connection during the HTTP exchange (keep-alive unsupported or timed out): "
    ++ e.message

/-- The close/re-raise message of `Connection::request`
(Client.cpp lines 170-179). -/
def exchangeErrorMessage (e : Ec) : String :=
  if e = Ec.endOfStream then peerClosedMessage e
  else "HTTP keep-alive exchange failed: " ++ e.message

/-- The close/re-raise message of `Connection::stream_request`
(Client.cpp lines 313-322). -/
def streamErrorMessage (e : Ec) : String :=
  if e = Ec.endOfStream then peerClosedMessage e
  else "HTTP keep-alive stream failed: " ++ e.message

/-- The proactive close reason on a response that does not keep alive
(Client.cpp lines 183 and 326). -/
def serverClosedReason : String :=
  "Server indicated Connection: close (keep-alive disabled or mismatch)."

/-- What the transport did during the write/read of one full
request/response exchange: either a full response arrived (with its status
and negotiated keep-alive), or a `beast::system_error` was raised. -/
inductive ExchangeOutcome where
  | success (status : Nat) (respKeepAlive : Bool)
  | failure (e : Ec)
deriving DecidableEq, Repr

/-- Errors thrown by `Connection::request` / `Connection::stream_request`. -/
inductive ReqError where
  | connClosed (msg : String)
  | transport (e : Ec) (msg : String)
deriving DecidableEq, Repr

/-- `Connection::request` (Client.cpp lines 132-189): precondition check,
write/read, error close+rethrow, then the keep-alive policy: close with an
explanatory reason when the response does not keep alive, otherwise keep
the socket and clear the previous close reason. Returns the result (status
and response keep-alive, abstracting the response) plus the new state. -/
def Connection.request (c : Connection) (x : ExchangeOutcome) :
    Except ReqError (Nat × Bool) × Connection :=
  if c.isOpen = false then
    (Except.error (ReqError.connClosed (closedErrorMessage c)), c)
  else
    match x with
    | ExchangeOutcome.failure e =>
      (Except.error (ReqError.transport e (exchangeErrorMessage e)),
       c.close (exchangeErrorMessage e))
    | ExchangeOutcome.success status ka =>
      if ka = false then
        (Except.ok (status, ka), c.close serverClosedReason)
      else
        (Except.ok (status, ka), { c with closeReason := "" })

/-- Body phase of a streamed response: chunked framing or fixed-length
framing (with the negotiated keep-alive of the response headers). -/
inductive StreamBody where
  | chunked (rs : List ChunkedRead)
  | fixed (respKeepAlive : Bool) (rs : List FixedRead)
deriving DecidableEq, Repr

/-- What the transport did during a streamed exchange: the request write or
header read raised an error, or the headers arrived (status known) and the
body phase ran. -/
inductive StreamExchange where
  | headerFail (e : Ec)
  | body (status : Nat) (b : StreamBody)
deriving DecidableEq, Repr

/-- Result of `Connection::stream_request` as seen by the caller. -/
inductive StreamResult where
  | ok (status : Nat) (events : List ChunkEvent)
  | errNoCallback
  | errClosed (msg : String)
  | errTransport (e : Ec) (msg : String)
  | blocked (events : List ChunkEvent)
deriving DecidableEq, Repr

/-- `Connection::stream_request` (Client.cpp lines 191-332): callback and
open-state preconditions, then the chunked or fixed-length body loop, the
catch block closing with a diagnostic before re-raising, and the final
keep-alive policy — a chunked stream always sets `keep_alive = false`
(line 268); a fixed-length stream keeps the response keep-alive unless
`saw_end_of_stream` (line 298). -/
def Connection.streamRequest (c : Connection) (hasCallback : Bool)
    (x : StreamExchange) : StreamResult × Connection :=
  if hasCallback = false then
    (StreamResult.errNoCallback, c)
  else if c.isOpen = false then
    (StreamResult.errClosed (closedErrorMessage c), c)
  else
    match x with
    | StreamExchange.headerFail e =>
      (StreamResult.errTransport e (streamErrorMessage e), c.close (streamErrorMessage e))
    | StreamExchange.body status (StreamBody.chunked rs) =>
      match chunkedStreamEvents rs with
      | (evs, StreamEnd.completed) => (StreamResult.ok status evs, c.close serverClosedReason)
      | (evs, StreamEnd.eos) => (StreamResult.ok status evs, c.close serverClosedReason)
      | (_, StreamEnd.errored e) =>
        (StreamResult.errTransport e (streamErrorMessage e), c.close (streamErrorMessage e))
      | (evs, StreamEnd.starved) => (StreamResult.blocked evs, c)
    | StreamExchange.body status (StreamBody.fixed respKa rs) =>
      let fr := fixedLoop rs
      match fr.thrown with
      | some e =>
        (StreamResult.errTransport e (streamErrorMessage e), c.close (streamErrorMessage e))
      | none =>
        if fr.starved = true then
          (StreamResult.blocked fr.events, c)
        else
          let ka := if fr.sawEos = true then false else respKa
          if ka = false then
            (StreamResult.ok status fr.events, c.close serverClosedReason)
          else
            (StreamResult.ok status fr.events, { c with closeReason := "" })

/-- A connection-level operation, for stating lifetime invariants. A move
transfers the state wholesale to the target object, so the state of the
logical connection is unchanged by it; it is therefore not listed. -/
inductive ConnOp where
  | request (x : ExchangeOutcome)
  | stream (hasCallback : Bool) (x : StreamExchange)
  | close (reason : String)

/-- The state after performing one operation (results discarded). -/
def ConnOp.apply (c : Connection) : ConnOp → Connection
  | ConnOp.request x => (c.request x).2
  | ConnOp.stream hcb x => (c.streamRequest hcb x).2
  | ConnOp.close r => c.close r

/-- The state after a sequence of operations on a fresh connection. -/
def runOps (c : Connection) (ops : List ConnOp) : Connection :=
  ops.foldl ConnOp.apply c

/-- The data-model invariant of §3: the close reason is non-empty exactly
when the connection is closed (closure is permanent, so "is closed" and
"was closed at least once" coincide for reachable states). -/
def ConnInv (c : Connection) : Prop :=
  c.closeReason ≠ "" ↔ c.isOpen = false

/-! ### URL parsing

`Client::parseUrl` and `HTTPClient::parseUrl` are textually identical
(Client.cpp lines 16-31, HTTPClient.cpp lines 12-27). They match the raw
string literal `R"(^([Hh][Tt][Tt][Pp][Ss]?)://([^/:]+)(?::(\d+))?(\/.*)?$")"`
against the whole URL. Note the raw literal terminates at the first `)"`
sequence, so the compiled pattern is
`^([Hh][Tt][Tt][Pp][Ss]?)://([^/:]+)(?::(\d+))?(\/.*)?$` followed by one
literal double-quote character: the pattern demands a quote character
after the end-of-input anchor. The embedding below translates that
pattern step by step, including the trailing quote. -/

structure ParsedUrl where
  https : Bool
  host : String
  port : String
  target : String
deriving DecidableEq, Repr

/-- Does a character list match `[Hh][Tt][Tt][Pp][Ss]?` exactly? -/
def schemeOk (cs : List Char) : Bool :=
  match cs with
  | [c1, c2, c3, c4] =>
    (c1 == 'H' || c1 == 'h') && (c2 == 'T' || c2 == 't')
      && (c3 == 'T' || c3 == 't') && (c4 == 'P' || c4 == 'p')
  | [c1, c2, c3, c4, c5] =>
    (c1 == 'H' || c1 == 'h') && (c2 == 'T' || c2 == 't')
      && (c3 == 'T' || c3 == 't') && (c4 == 'P' || c4 == 'p')
      && (c5 == 'S' || c5 == 's')
  | _ => false

/-- ECMAScript line terminators, which `.` in the pattern cannot match. -/
def isLineTerminator (c : Char) : Bool :=
  c == '\n' || c == '\r' || c == Char.ofNat 0x2028 || c == Char.ofNat 0x2029

/-- `p.https` from the matched scheme text (Client.cpp line 26): true only
for the three spellings the code compares against. -/
def schemeIsHttps (scheme : String) : Bool :=
  scheme == "https" || scheme == "HTTPS" || scheme == "Https"

/-- The final step of the pattern after the optional port and path groups:
`$` (remaining input must be empty) followed by a literal quote character
(one more character must remain). The two demands are contradictory, so no
input survives this step; it is kept exactly as the pattern states it. -/
def matchEndAndQuote (p : ParsedUrl) (rest : List Char) : Option ParsedUrl :=
  if rest.isEmpty then
    match rest with
    | '\x22' :: _ => some p
    | _ => none
  else
    none

/-- Whole-string match of the compiled pattern against the URL characters,
producing the fields `parseUrl` extracts from the match groups
(Client.cpp lines 24-29): scheme group, host group, optional port digits
group (default 443/80 by scheme), optional path group (default "/"). -/
def parseUrlMatch (cs : List Char) : Option ParsedUrl :=
  let scheme := cs.takeWhile (fun c => c != ':')
  let rest1 := cs.drop scheme.length
  if schemeOk scheme then
    match rest1 with
    | ':' :: '/' :: '/' :: rest2 =>
      let host := rest2.takeWhile (fun c => c != '/' && c != ':')
      let rest3 := rest2.drop host.length
      if host.isEmpty then none
      else
        let httpsFlag := schemeIsHttps (String.mk scheme)
        let defaultPort := if httpsFlag then "443" else "80"
        match rest3 with
        | [] =>
          matchEndAndQuote
            { https := httpsFlag, host := String.mk host, port := defaultPort, target := "/" } []
        | ':' :: rest4 =>
          let digits := rest4.takeWhile Char.isDigit
          let rest5 := rest4.drop digits.length
          if digits.isEmpty then none
          else
            match rest5 with
            | [] =>
              matchEndAndQuote
                { https := httpsFlag, host := String.mk host,
                  port := String.mk digits, target := "/" } []
            | '/' :: _ =>
              if rest5.any isLineTerminator then none
              else
                matchEndAndQuote
                  { https := httpsFlag, host := String.mk host,
                    port := String.mk digits, target := String.mk rest5 } []
            | _ => none
        | '/' :: _ =>
          if rest3.any isLineTerminator then none
          else
            matchEndAndQuote
              { https := httpsFlag, host := String.mk host,
                port := defaultPort, target := String.mk rest3 } []
        | _ => none
    | _ => none
  else
    none

/-- `parseUrl` (Client.cpp lines 16-31 and HTTPClient.cpp lines 12-27):
return the extracted pieces on a regex match, otherwise throw
`std::invalid_argument`. -/
def parseUrl (url : String) : Except String ParsedUrl :=
  match parseUrlMatch url.data with
  | some p => Except.ok p
  | none => Except.error ("Unsupported or invalid URL: " ++ url)

/-! ### One-shot (stateless) client helpers -/

/-- The HTTP verbs the helpers use. -/
inductive Verb where
  | head
  | get
  | delete_
  | post
  | put
deriving DecidableEq, Repr

/-- The observable outgoing request a one-shot helper serialises:
method/target/version line, the headers the code sets, and the body.
`explicitKeepAlive` records whether `req.keep_alive(...)` was called;
when it was not, beast derives the wire meaning from the HTTP version
(keep-alive is the HTTP/1.1 default). -/
structure OutRequest where
  method : Verb
  target : String
  version : Nat
  host : String
  userAgent : String
  explicitKeepAlive : Option Bool
  headers : List (String × String)
  contentType : Option String
  body : Option String
  contentLength : Option Nat
deriving DecidableEq, Repr

/-- Effective keep-alive of the serialised request: the explicitly set
value if any, else the version default (true exactly for HTTP/1.1). -/
def OutRequest.wireKeepAlive (r : OutRequest) : Bool :=
  match r.explicitKeepAlive with
  | some b => b
  | none => r.version == 11

/-- Transport-level actions a one-shot helper performs, in order. -/
inductive NetAction where
  | resolve (host port : String)
  | connect
  | tlsHandshake
  | writeRequest (r : OutRequest)
  | readResponse
  | shutdown
deriving DecidableEq, Repr

/-- A one-shot exchange as planned by a helper: the endpoint, the request
it serialises, and the transport actions it performs. -/
structure ExchangePlan where
  https : Bool
  host : String
  port : String
  req : OutRequest
  actions : List NetAction
deriving DecidableEq, Repr

namespace Client

/-- The request built by `RESTCore::Client::request`
(Client.cpp lines 591-602): Host, User-Agent, `keep_alive(false)`, user
headers merged, and content-type plus computed Content-Length when a body
is given. -/
def buildOneShotRequest (method : Verb) (host target : String)
    (headers : List (String × String)) (body contentType : Option String) : OutRequest :=
  { method := method, target := target, version := 11, host := host,
    userAgent := "HTTPClient/1.0 (Boost.Beast)",
    explicitKeepAlive := some false,
    headers := headers,
    contentType :=
      match body with
      | some _ => some (contentType.getD "application/octet-stream")
      | none => none,
    body := body,
    contentLength := body.map String.length }

/-- The transport actions of `RESTCore::Client::request`
(Client.cpp lines 584-648): resolve, connect (plus TLS handshake when
https), one write, one full response read, then shutdown — on both the
plain and the TLS path. -/
def oneShotActions (https : Bool) (host port : String) (r : OutRequest) : List NetAction :=
  if https then
    [NetAction.resolve host port, NetAction.connect, NetAction.tlsHandshake,
     NetAction.writeRequest r, NetAction.readResponse, NetAction.shutdown]
  else
    [NetAction.resolve host port, NetAction.connect,
     NetAction.writeRequest r, NetAction.readResponse, NetAction.shutdown]

/-- The stateless `RESTCore::Client::request` (Client.cpp lines 575-649). -/
def oneShot (https : Bool) (method : Verb) (host port target : String)
    (headers : List (String × String)) (body contentType : Option String) : ExchangePlan :=
  let req := buildOneShotRequest method host target headers body contentType
  { https := https, host := host, port := port, req := req,
    actions := oneShotActions https host port req }

/-- The stateless `RESTCore::Client::stream_request`
(Client.cpp lines 651-791): same endpoint handling and request build
(`keep_alive(false)`, line 673) as `oneShot`; rejects a missing chunk
callback first; both transport paths end in shutdown. -/
def oneShotStream (https : Bool) (method : Verb) (host port target : String)
    (headers : List (String × String)) (body contentType : Option String)
    (hasCallback : Bool) : Except String ExchangePlan :=
  if hasCallback = false then
    Except.error "Client::stream_request requires a non-empty chunk callback"
  else
    Except.ok (oneShot https method host port target headers body contentType)

/-- `Client::Head` host/port form (Client.cpp lines 364-371). -/
def Head (https : Bool) (host port target : String)
    (headers : List (String × String)) : ExchangePlan :=
  oneShot https Verb.head host port target headers none none

/-- `Client::Get` host/port form (Client.cpp lines 373-380). -/
def Get (https : Bool) (host port target : String)
    (headers : List (String × String)) : ExchangePlan :=
  oneShot https Verb.get host port target headers none none

/-- `Client::Delete` host/port form (Client.cpp lines 382-389). -/
def Delete (https : Bool) (host port target : String)
    (headers : List (String × String)) : ExchangePlan :=
  oneShot https Verb.delete_ host port target headers none none

/-- `Client::Post` host/port form (Client.cpp lines 391-400). -/
def Post (https : Bool) (host port target body contentType : String)
    (headers : List (String × String)) : ExchangePlan :=
  oneShot https Verb.post host port target headers (some body) (some contentType)

/-- `Client::Put` host/port form (Client.cpp lines 402-411). -/
def Put (https : Bool) (host port target body contentType : String)
    (headers : List (String × String)) : ExchangePlan :=
  oneShot https Verb.put host port target headers (some body) (some contentType)

/-- `Client::Head` URL form (Client.cpp lines 334-338). -/
def HeadUrl (url : String) (headers : List (String × String)) : Except String ExchangePlan :=
  (parseUrl url).map fun p => oneShot p.https Verb.head p.host p.port p.target headers none none

/-- `Client::Get` URL form (Client.cpp lines 340-344). -/
def GetUrl (url : String) (headers : List (String × String)) : Except String ExchangePlan :=
  (parseUrl url).map fun p => oneShot p.https Verb.get p.host p.port p.target headers none none

/-- `Client::Delete` URL form (Client.cpp lines 346-350). -/
def DeleteUrl (url : String) (headers : List (String × String)) : Except String ExchangePlan :=
  (parseUrl url).map fun p =>
    oneShot p.https Verb.delete_ p.host p.port p.target headers none none

/-- `Client::Post` URL form (Client.cpp lines 352-356). -/
def PostUrl (url body contentType : String)
    (headers : List (String × String)) : Except String ExchangePlan :=
  (parseUrl url).map fun p =>
    oneShot p.https Verb.post p.host p.port p.target headers (some body) (some contentType)

/-- `Client::Put` URL form (Client.cpp lines 358-362). -/
def PutUrl (url body contentType : String)
    (headers : List (String × String)) : Except String ExchangePlan :=
  (parseUrl url).map fun p =>
    oneShot p.https Verb.put p.host p.port p.target headers (some body) (some contentType)

/-- `Client::GetStream` host/port form (Client.cpp lines 461-472). -/
def GetStream (https : Bool) (host port target : String)
    (headers : List (String × String)) (hasCallback : Bool) : Except String ExchangePlan :=
  if hasCallback = false then
    Except.error "Client::GetStream requires a non-empty chunk callback"
  else
    oneShotStream https Verb.get host port target headers none none hasCallback

/-- `Client::PostStream` host/port form (Client.cpp lines 484-497). -/
def PostStream (https : Bool) (host port target body contentType : String)
    (headers : List (String × String)) (hasCallback : Bool) : Except String ExchangePlan :=
  if hasCallback = false then
    Except.error "Client::PostStream requires a non-empty chunk callback"
  else
    oneShotStream https Verb.post host port target headers (some body) (some contentType)
      hasCallback

/-- `Client::GetStream` URL form (Client.cpp lines 544-553). -/
def GetStreamUrl (url : String) (headers : List (String × String))
    (hasCallback : Bool) : Except String ExchangePlan :=
  if hasCallback = false then
    Except.error "Client::GetStream requires a non-empty chunk callback"
  else
    (parseUrl url).bind fun p =>
      oneShotStream p.https Verb.get p.host p.port p.target headers none none hasCallback

/-- `Client::PostStream` URL form (Client.cpp lines 562-573). -/
def PostStreamUrl (url body contentType : String) (headers : List (String × String))
    (hasCallback : Bool) : Except String ExchangePlan :=
  if hasCallback = false then
    Except.error "Client::PostStream requires a non-empty chunk callback"
  else
    (parseUrl url).bind fun p =>
      oneShotStream p.https Verb.post p.host p.port p.target headers (some body)
        (some contentType) hasCallback

end Client

namespace HTTPClientM

/-- The request built by `HTTPClient::request`
(HTTPClient.cpp lines 123-134): Host, User-Agent, user headers, body and
content-type — but no `keep_alive` call at all, so the serialised
HTTP/1.1 request keeps the protocol default. -/
def buildRequest (method : Verb) (host target : String)
    (headers : List (String × String)) (body contentType : Option String) : OutRequest :=
  { method := method, target := target, version := 11, host := host,
    userAgent := "HTTPClient/1.0 (Boost.Beast)",
    explicitKeepAlive := none,
    headers := headers,
    contentType :=
      match body with
      | some _ => some (contentType.getD "application/octet-stream")
      | none => none,
    body := body,
    contentLength := body.map String.length }

/-- The stateless `HTTPClient::request` (HTTPClient.cpp lines 108-181):
resolve, connect (plus handshake when https), one write, one read, then
shutdown — identical transport shape to `Client.oneShot`. -/
def oneShot (https : Bool) (method : Verb) (host port target : String)
    (headers : List (String × String)) (body contentType : Option String) : ExchangePlan :=
  let req := buildRequest method host target headers body contentType
  { https := https, host := host, port := port, req := req,
    actions := Client.oneShotActions https host port req }

/-- `HTTPClient::Get` host/port form (HTTPClient.cpp lines 68-75). -/
def Get (https : Bool) (host port target : String)
    (headers : List (String × String)) : ExchangePlan :=
  oneShot https Verb.get host port target headers none none

/-- `HTTPClient::Get` URL form (HTTPClient.cpp lines 35-39). -/
def GetUrl (url : String) (headers : List (String × String)) : Except String ExchangePlan :=
  (parseUrl url).map fun p => oneShot p.https Verb.get p.host p.port p.target headers none none

/-- `HTTPClient::Post` host/port form (HTTPClient.cpp lines 86-95). -/
def Post (https : Bool) (host port target body contentType : String)
    (headers : List (String × String)) : ExchangePlan :=
  oneShot https Verb.post host port target headers (some body) (some contentType)

end HTTPClientM

end RESTCore

namespace HTTPServerHost

/-! ### Server host (`src/HTTPServerHost.cpp`)

The session handlers are modelled on the path where one request was read
successfully from the (optionally TLS-wrapped) socket; a read or
handshake failure abandons the session inside the catch-all
(lines 193-195 and 226-228), writing nothing. -/

/-- A parsed request, keeping the fields the session logic touches. -/
structure SRequest where
  version : Nat
  target : String
deriving DecidableEq, Repr

/-- A response under construction, with the header fields the session
logic reads or writes kept explicit. -/
structure SResponse where
  status : Nat
  version : Nat
  serverHeader : Option String
  contentLength : Option Nat
  keepAlive : Bool
  body : String
deriving DecidableEq, Repr

/-- The user callback: receives the request, the mutable response and the
textual client address, and yields the mutated response. -/
def SCallback : Type :=
  SRequest → SResponse → String → SResponse

/-- The default response built by `handle_http_session`
(HTTPServerHost.cpp lines 176-178): status 200 at the request version, a
Server identification header, keep-alive disabled, empty body. -/
def defaultHttpResponse (v : Nat) : SResponse :=
  { status := 200, version := v, serverHeader := some "HTTPServerHost/1.0",
    contentLength := none, keepAlive := false, body := "" }

/-- The default response built by `handle_https_session`
(HTTPServerHost.cpp lines 210-212); only the Server header text differs. -/
def defaultHttpsResponse (v : Nat) : SResponse :=
  { status := 200, version := v, serverHeader := some "HTTPServerHost/1.0 (TLS)",
    contentLength := none, keepAlive := false, body := "" }

/-- The content-length fill-in (lines 185-187 and 218-220): run
`prepare_payload` (which sets Content-Length to the body size) exactly
when the body is non-empty and no Content-Length header is present. -/
def ensureContentLength (r : SResponse) : SResponse :=
  if 0 < r.body.length ∧ r.contentLength = none then
    { r with contentLength := some r.body.length }
  else
    r

/-- What a session did: the response it wrote and whether it shut the
socket down afterwards. -/
structure SessionResult where
  written : SResponse
  shutdownPerformed : Bool
deriving DecidableEq, Repr

/-- `handle_http_session` (HTTPServerHost.cpp lines 169-196) after a
successful request read: build the default response, invoke the callback
if one is set (line 182 guards on `if (cb)`), fill in Content-Length if
needed, write, then unconditionally shut the socket down. -/
def handle_http_session (cb : Option SCallback) (req : SRequest)
    (client : String) : SessionResult :=
  let res0 := defaultHttpResponse req.version
  let res1 :=
    match cb with
    | none => res0
    | some f => f req res0 client
  { written := ensureContentLength res1, shutdownPerformed := true }

/-- `handle_https_session` (HTTPServerHost.cpp lines 198-229): a
server-side TLS handshake precedes the read; a handshake failure abandons
the session without invoking the callback (`none`); otherwise the flow
matches the HTTP session with the TLS Server header. -/
def handle_https_session (handshakeOk : Bool) (cb : Option SCallback)
    (req : SRequest) (client : String) : Option SessionResult :=
  if handshakeOk = false then
    none
  else
    let res0 := defaultHttpsResponse req.version
    let res1 :=
      match cb with
      | none => res0
      | some f => f req res0 client
    some { written := ensureContentLength res1, shutdownPerformed := true }

/-- One listener runtime: its `running` atomic flag (the thread handle and
bound endpoint are owned alongside; joining is recorded as an effect). -/
structure ListenerRuntime where
  running : Bool
deriving DecidableEq, Repr

/-- The listener-manager state `stop()` operates on: the two runtime
lists. -/
structure ServerState where
  httpRuntimes : List ListenerRuntime
  httpsRuntimes : List ListenerRuntime
deriving DecidableEq, Repr

/-- A server with no listeners running. -/
def ServerState.empty : ServerState :=
  { httpRuntimes := [], httpsRuntimes := [] }

/-- The observable effects of one `stop()` call: how many best-effort wake
connections were attempted (one per runtime whose `running` flag the
`exchange(false)` found true, lines 75-86) and how many threads were
joined (every runtime still holding a joinable thread, lines 87-92). -/
structure StopEffects where
  wakes : Nat
  joins : Nat
deriving DecidableEq, Repr

/-- `HTTPServerHost::stop` (HTTPServerHost.cpp lines 56-95): exchange
every runtime's `running` flag to false and wake the ones that were
running, join every runtime thread, then clear both runtime lists. Wake
failures are swallowed (lines 70-72), so no error can surface. -/
def stop (s : ServerState) : ServerState × StopEffects :=
  (ServerState.empty,
   { wakes := (s.httpRuntimes.filter (fun rt => rt.running)).length
        + (s.httpsRuntimes.filter (fun rt => rt.running)).length,
     joins := s.httpRuntimes.length + s.httpsRuntimes.length })

end HTTPServerHost

/-! ## Concrete example inputs -/

namespace RESTCore

/-- The spec example: a chunked response of chunks `"Hello "`, `"World"`,
`"!"` (sizes 6, 5, 1), then the terminal zero-size chunk. -/
def helloChunkedReads : List ChunkedRead :=
  [{ pieces := ["Hello "], ec := Ec.ok, doneAfter := false },
   { pieces := ["World"], ec := Ec.ok, doneAfter := false },
   { pieces := ["!"], ec := Ec.ok, doneAfter := false },
   { pieces := [], ec := Ec.ok, doneAfter := true }]

/-- A fixed-length body delivered in two reads, the second completing the
message. -/
def fixedOkReads : List FixedRead :=
  [{ data := "abc", ec := Ec.ok, doneAfter := false },
   { data := "de", ec := Ec.ok, doneAfter := true }]

/-- A fixed-length body cut short: one read yields three bytes together
with `end_of_stream` while the parser still expects more. -/
def fixedTruncatedReads : List FixedRead :=
  [{ data := "abc", ec := Ec.endOfStream, doneAfter := false }]

end RESTCore

/-! ## Helper lemmas -/

namespace RESTCore

theorem emitPieces_append (a b : List String) :
    emitPieces (a ++ b) = emitPieces a ++ emitPieces b := by
  simp [emitPieces, List.filter_append]

theorem emitPieces_mem (ps : List String) :
    ∀ ev ∈ emitPieces ps, ev.final = false ∧ ev.data ≠ "" := by
  intro ev hev
  simp only [emitPieces, List.mem_map, List.mem_filter] at hev
  obtain ⟨p, ⟨_, hne⟩, rfl⟩ := hev
  exact ⟨rfl, by simpa using hne⟩

theorem emitPieces_no_final (ps : List String) :
    (emitPieces ps).filter (fun ev => ev.final = true) = [] := by
  rw [List.filter_eq_nil_iff]
  intro ev hev
  have h := emitPieces_mem ps ev hev
  simp [h.1]

/-- The events fired inside the chunked body loop are exactly the
non-empty decoded pieces it consumed, in order, each with `final = false`. -/
theorem chunkedLoop_fst (rs : List ChunkedRead) :
    (chunkedLoop rs).1 = emitPieces (consumedPieces rs) := by
  induction rs with
  | nil => simp [chunkedLoop, consumedPieces, emitPieces]
  | cons r rs ih =>
    by_cases h1 : r.ec = Ec.endOfStream
    · simp [chunkedLoop, consumedPieces, h1]
    · by_cases h2 : r.ec ≠ Ec.ok ∧ r.ec ≠ Ec.needBuffer
      · simp only [chunkedLoop, consumedPieces, if_neg h1, if_pos h2]
      · by_cases h3 : r.doneAfter = true
        · simp only [chunkedLoop, consumedPieces, if_neg h1, if_neg h2, if_pos h3]
        · simp only [chunkedLoop, consumedPieces, if_neg h1, if_neg h2, if_neg h3,
            emitPieces_append, ih]

theorem flatten_filter_data (l : List String) :
    ((l.filter (fun p => p ≠ "")).map String.data).flatten = (l.map String.data).flatten := by
  induction l with
  | nil => rfl
  | cons h t ih =>
    by_cases hh : h = ""
    · subst hh
      simpa using ih
    · have hcons : (h :: t).filter (fun p => p ≠ "") = h :: t.filter (fun p => p ≠ "") := by
        simp [List.filter_cons, hh]
      rw [hcons, List.map_cons, List.map_cons, List.flatten_cons, List.flatten_cons, ih]

theorem join_filter_nonempty (l : List String) :
    String.join (l.filter (fun p => p ≠ "")) = String.join l := by
  rw [String.join_eq, String.join_eq]
  exact congrArg String.mk (flatten_filter_data l)

theorem emitPieces_all_nonfinal (ps : List String) :
    (emitPieces ps).filter (fun ev => ev.final = false) = emitPieces ps := by
  rw [List.filter_eq_self]
  intro ev hev
  simp [(emitPieces_mem ps ev hev).1]

theorem concat_emitPieces (ps : List String) :
    concatNonFinal (emitPieces ps ++ [{ data := "", final := true }]) = String.join ps := by
  have hfin : (([{ data := "", final := true }] : List ChunkEvent).filter
      (fun ev => ev.final = false)) = [] := by
    simp
  rw [concatNonFinal, List.filter_append, hfin, List.append_nil, emitPieces_all_nonfinal]
  have hmap : (emitPieces ps).map ChunkEvent.data = ps.filter (fun p => p ≠ "") := by
    simp only [emitPieces, List.map_map]
    have hid : (ChunkEvent.data ∘ fun p => ({ data := p, final := false } : ChunkEvent)) = id :=
      rfl
    rw [hid, List.map_id]
  rw [hmap, join_filter_nonempty]

theorem mem_of_mem_dropLast_append {α : Type} {a b : List α} {x : α}
    (hx : x ∈ (a ++ b).dropLast) : x ∈ a ∨ x ∈ b.dropLast := by
  cases b with
  | nil =>
    rw [List.append_nil] at hx
    exact Or.inl (List.dropLast_subset a hx)
  | cons y ys =>
    rw [List.dropLast_append_cons] at hx
    exact List.mem_append.mp hx

/-- On a loop that terminated via the terminal chunk or a tolerated
end-of-stream, the full chunked branch appends exactly one final event. -/
theorem chunkedStreamEvents_terminating (rs : List ChunkedRead)
    (h : (chunkedLoop rs).2 = StreamEnd.completed ∨ (chunkedLoop rs).2 = StreamEnd.eos) :
    (chunkedStreamEvents rs).1 = (chunkedLoop rs).1 ++ [{ data := "", final := true }] := by
  rcases hE : chunkedLoop rs with ⟨evs, e⟩
  rw [hE] at h
  rcases h with h | h <;> simp at h <;> subst h <;> simp [chunkedStreamEvents, hE]

/-- The full chunked branch never changes how the loop ended. -/
theorem chunkedStreamEvents_snd (rs : List ChunkedRead) :
    (chunkedStreamEvents rs).2 = (chunkedLoop rs).2 := by
  rcases hE : chunkedLoop rs with ⟨evs, e⟩
  cases e <;> simp [chunkedStreamEvents, hE]

theorem string_append_ne_empty (a b : String) (h : a ≠ "") : a ++ b ≠ "" := by
  intro hc
  apply h
  have hd := congrArg String.data hc
  rw [String.data_append] at hd
  have hnil : a.data = [] := (List.append_eq_nil.mp hd).1
  exact String.ext hnil

theorem string_append_ne_of_head (a b x y : String) (c1 c2 : Char)
    (ha : a.data.head? = some c1) (hb : b.data.head? = some c2) (hne : c1 ≠ c2) :
    a ++ x ≠ b ++ y := by
  intro h
  have hd := congrArg String.data h
  rw [String.data_append, String.data_append] at hd
  cases hA : a.data with
  | nil =>
    rw [hA] at ha
    simp at ha
  | cons u us =>
    cases hB : b.data with
    | nil =>
      rw [hB] at hb
      simp at hb
    | cons v vs =>
      rw [hA] at ha
      rw [hB] at hb
      simp at ha hb
      rw [hA, hB] at hd
      simp at hd
      exact hne (by rw [← ha, ← hb]; exact hd.1)

theorem peerClosedMessage_ne_empty (e : Ec) : peerClosedMessage e ≠ "" := by
  apply string_append_ne_empty
  decide

theorem exchangeErrorMessage_ne_empty (e : Ec) : exchangeErrorMessage e ≠ "" := by
  rw [exchangeErrorMessage]
  by_cases h : e = Ec.endOfStream
  · simp only [if_pos h]
    exact peerClosedMessage_ne_empty e
  · simp only [if_neg h]
    apply string_append_ne_empty
    decide

theorem streamErrorMessage_ne_empty (e : Ec) : streamErrorMessage e ≠ "" := by
  rw [streamErrorMessage]
  by_cases h : e = Ec.endOfStream
  · simp only [if_pos h]
    exact peerClosedMessage_ne_empty e
  · simp only [if_neg h]
    apply string_append_ne_empty
    decide

theorem serverClosedReason_ne_empty : serverClosedReason ≠ "" := by
  decide

/-- Closing an open connection with a non-empty reason records exactly
that reason. -/
theorem close_open_reason (c : Connection) (r : String) (hopen : c.isOpen = true)
    (hr : r ≠ "") : (c.close r).closeReason = r := by
  simp [Connection.close, hopen, hr]

theorem close_not_open (c : Connection) (r : String) : (c.close r).isOpen = false :=
  rfl

/-- `Connection::request` on a closed connection only throws. -/
theorem request_closed (c : Connection) (x : ExchangeOutcome) (h : c.isOpen = false) :
    c.request x = (Except.error (ReqError.connClosed (closedErrorMessage c)), c) := by
  simp [Connection.request, h]

/-- `Connection::request`, open connection, transport error: close with the
diagnostic, re-raise carrying the same message. -/
theorem request_open_failure (c : Connection) (e : Ec) (h : c.isOpen = true) :
    c.request (ExchangeOutcome.failure e)
      = (Except.error (ReqError.transport e (exchangeErrorMessage e)),
         c.close (exchangeErrorMessage e)) := by
  simp [Connection.request, h]

/-- `Connection::request`, open connection, full response: keep-alive
policy on the resulting state. -/
theorem request_open_success (c : Connection) (st : Nat) (ka : Bool) (h : c.isOpen = true) :
    c.request (ExchangeOutcome.success st ka)
      = (Except.ok (st, ka),
         if ka = false then c.close serverClosedReason
         else { c with closeReason := "" }) := by
  cases ka <;> simp [Connection.request, h]

theorem stream_nocb (c : Connection) (x : StreamExchange) :
    c.streamRequest false x = (StreamResult.errNoCallback, c) := by
  simp [Connection.streamRequest]

theorem stream_closed (c : Connection) (x : StreamExchange) (h : c.isOpen = false) :
    c.streamRequest true x = (StreamResult.errClosed (closedErrorMessage c), c) := by
  simp [Connection.streamRequest, h]

theorem stream_headerFail (c : Connection) (e : Ec) (h : c.isOpen = true) :
    c.streamRequest true (StreamExchange.headerFail e)
      = (StreamResult.errTransport e (streamErrorMessage e),
         c.close (streamErrorMessage e)) := by
  simp [Connection.streamRequest, h]

theorem stream_chunked_done (c : Connection) (status : Nat) (rs : List ChunkedRead)
    (evs : List ChunkEvent)
    (hE : chunkedStreamEvents rs = (evs, StreamEnd.completed) ∨
      chunkedStreamEvents rs = (evs, StreamEnd.eos)) (h : c.isOpen = true) :
    c.streamRequest true (StreamExchange.body status (StreamBody.chunked rs))
      = (StreamResult.ok status evs, c.close serverClosedReason) := by
  rcases hE with hE | hE <;> simp [Connection.streamRequest, h, hE]

theorem stream_chunked_err (c : Connection) (status : Nat) (rs : List ChunkedRead)
    (evs : List ChunkEvent) (e : Ec)
    (hE : chunkedStreamEvents rs = (evs, StreamEnd.errored e)) (h : c.isOpen = true) :
    c.streamRequest true (StreamExchange.body status (StreamBody.chunked rs))
      = (StreamResult.errTransport e (streamErrorMessage e),
         c.close (streamErrorMessage e)) := by
  simp [Connection.streamRequest, h, hE]

theorem stream_chunked_starved (c : Connection) (status : Nat) (rs : List ChunkedRead)
    (evs : List ChunkEvent)
    (hE : chunkedStreamEvents rs = (evs, StreamEnd.starved)) (h : c.isOpen = true) :
    c.streamRequest true (StreamExchange.body status (StreamBody.chunked rs))
      = (StreamResult.blocked evs, c) := by
  simp [Connection.streamRequest, h, hE]

theorem stream_fixed_thrown (c : Connection) (status : Nat) (respKa : Bool)
    (rs : List FixedRead) (e : Ec)
    (hT : (fixedLoop rs).thrown = some e) (h : c.isOpen = true) :
    c.streamRequest true (StreamExchange.body status (StreamBody.fixed respKa rs))
      = (StreamResult.errTransport e (streamErrorMessage e),
         c.close (streamErrorMessage e)) := by
  simp [Connection.streamRequest, h, hT]

theorem stream_fixed_starved (c : Connection) (status : Nat) (respKa : Bool)
    (rs : List FixedRead)
    (hT : (fixedLoop rs).thrown = none) (hS : (fixedLoop rs).starved = true)
    (h : c.isOpen = true) :
    c.streamRequest true (StreamExchange.body status (StreamBody.fixed respKa rs))
      = (StreamResult.blocked (fixedLoop rs).events, c) := by
  simp [Connection.streamRequest, h, hT, hS]

theorem stream_fixed_ok (c : Connection) (status : Nat) (respKa : Bool)
    (rs : List FixedRead)
    (hT : (fixedLoop rs).thrown = none) (hS : (fixedLoop rs).starved = false)
    (h : c.isOpen = true) :
    c.streamRequest true (StreamExchange.body status (StreamBody.fixed respKa rs))
      = (StreamResult.ok status (fixedLoop rs).events,
         if (if (fixedLoop rs).sawEos = true then false else respKa) = false then
           c.close serverClosedReason
         else { c with closeReason := "" }) := by
  by_cases hk : (if (fixedLoop rs).sawEos = true then false else respKa) = false <;>
    simp [Connection.streamRequest, h, hT, hS, hk]

/-- Closing a connection always yields a state satisfying the invariant,
provided an already-closed connection satisfied it before. -/
theorem connInv_close (c : Connection) (r : String) (h : ConnInv c) :
    ConnInv (c.close r) := by
  constructor
  · intro _
    rfl
  · intro _
    by_cases hr : r = ""
    · subst hr
      by_cases ho : c.isOpen = true
      · simp [Connection.close, ho]
      · have hcl : c.isOpen = false := by
          cases hb : c.isOpen
          · rfl
          · exact absurd hb ho
        simp [Connection.close, hcl]
        exact h.mpr hcl
    · by_cases ho : c.isOpen = true <;> simp [Connection.close, ho, hr]

theorem connInv_keepOpen (c : Connection) (hoT : c.isOpen = true) :
    ConnInv ({ c with closeReason := "" } : Connection) := by
  constructor
  · intro hne
    exact absurd rfl hne
  · intro hcl
    rw [show ({ c with closeReason := "" } : Connection).isOpen = c.isOpen from rfl] at hcl
    rw [hoT] at hcl
    exact absurd hcl (by decide)

/-- Every connection operation preserves the close-reason invariant. -/
theorem connInv_apply (c : Connection) (op : ConnOp) (h : ConnInv c) :
    ConnInv (ConnOp.apply c op) := by
  cases op with
  | close r => exact connInv_close c r h
  | request x =>
    by_cases ho : c.isOpen = true
    case neg =>
      have hcl : c.isOpen = false := by
        cases hb : c.isOpen
        · rfl
        · exact absurd hb ho
      rw [ConnOp.apply, request_closed c x hcl]
      exact h
    case pos =>
      cases x with
      | failure e =>
        rw [ConnOp.apply, request_open_failure c e ho]
        exact connInv_close c _ h
      | success st ka =>
        rw [ConnOp.apply, request_open_success c st ka ho]
        cases ka with
        | false => exact connInv_close c _ h
        | true => exact connInv_keepOpen c ho
  | stream hcb x =>
    cases hcb with
    | false =>
      rw [ConnOp.apply, stream_nocb c x]
      exact h
    | true =>
      by_cases ho : c.isOpen = true
      case neg =>
        have hcl : c.isOpen = false := by
          cases hb : c.isOpen
          · rfl
          · exact absurd hb ho
        rw [ConnOp.apply, stream_closed c x hcl]
        exact h
      case pos =>
        cases x with
        | headerFail e =>
          rw [ConnOp.apply, stream_headerFail c e ho]
          exact connInv_close c _ h
        | body status b =>
          cases b with
          | chunked rs =>
            rcases hE : chunkedStreamEvents rs with ⟨evs, e2⟩
            cases e2 with
            | completed =>
              rw [ConnOp.apply, stream_chunked_done c status rs evs (Or.inl hE) ho]
              exact connInv_close c _ h
            | eos =>
              rw [ConnOp.apply, stream_chunked_done c status rs evs (Or.inr hE) ho]
              exact connInv_close c _ h
            | errored e =>
              rw [ConnOp.apply, stream_chunked_err c status rs evs e hE ho]
              exact connInv_close c _ h
            | starved =>
              rw [ConnOp.apply, stream_chunked_starved c status rs evs hE ho]
              exact h
          | fixed respKa rs =>
            rcases hT : (fixedLoop rs).thrown with _ | e
            case some =>
              rw [ConnOp.apply, stream_fixed_thrown c status respKa rs e hT ho]
              exact connInv_close c _ h
            case none =>
              cases hS : (fixedLoop rs).starved with
              | true =>
                rw [ConnOp.apply, stream_fixed_starved c status respKa rs hT hS ho]
                exact h
              | false =>
                rw [ConnOp.apply, stream_fixed_ok c status respKa rs hT hS ho]
                by_cases hk : (if (fixedLoop rs).sawEos = true then false else respKa) = false
                · rw [if_pos hk]
                  exact connInv_close c _ h
                · rw [if_neg hk]
                  exact connInv_keepOpen c ho

/-- A closed connection never becomes open again. -/
theorem closed_stays_closed (c : Connection) (op : ConnOp) (h : c.isOpen = false) :
    (ConnOp.apply c op).isOpen = false := by
  cases op with
  | close r => rfl
  | request x => simp [ConnOp.apply, Connection.request, h]
  | stream hcb x =>
    by_cases hcbF : hcb = false
    · simp [ConnOp.apply, Connection.streamRequest, hcbF, h]
    · have hcbT : hcb = true := by
        cases hcb
        · exact absurd rfl hcbF
        · rfl
      simp [ConnOp.apply, Connection.streamRequest, hcbT, h]

theorem runOps_inv (c : Connection) (ops : List ConnOp) (h : ConnInv c) :
    ConnInv (runOps c ops) := by
  induction ops generalizing c with
  | nil => exact h
  | cons op ops ih => exact ih (ConnOp.apply c op) (connInv_apply c op h)

theorem runOps_closed_mono (c : Connection) (ops : List ConnOp) (h : c.isOpen = false) :
    (runOps c ops).isOpen = false := by
  induction ops generalizing c with
  | nil => exact h
  | cons op ops ih => exact ih (ConnOp.apply c op) (closed_stays_closed c op h)

theorem runOps_append (c : Connection) (a b : List ConnOp) :
    runOps c (a ++ b) = runOps (runOps c a) b := by
  simp [runOps, List.foldl_append]

end RESTCore

/-! ## Claim theorems -/

/-- C1: for every chunked-framed streamed response whose decoding
terminates (terminal zero-size chunk, or end-of-stream tolerated as a
terminator), the decoder fires `on_chunk(piece, false)` exactly for the
non-empty decoded pieces, in order, never for an empty one; exactly one
`on_chunk(empty, true)` event follows, and the concatenation of the
non-final payloads equals the decoded body. -/
theorem chunked_stream_on_chunk_contract (rs : List RESTCore.ChunkedRead)
    (h : (RESTCore.chunkedLoop rs).2 = RESTCore.StreamEnd.completed ∨
         (RESTCore.chunkedLoop rs).2 = RESTCore.StreamEnd.eos) :
    (RESTCore.chunkedStreamEvents rs).1
      = RESTCore.emitPieces (RESTCore.consumedPieces rs)
          ++ [{ data := "", final := true }] ∧
    (∀ ev ∈ (RESTCore.chunkedStreamEvents rs).1, ev.final = false → ev.data ≠ "") ∧
    ((RESTCore.chunkedStreamEvents rs).1.filter (fun ev => ev.final = true))
      = [{ data := "", final := true }] ∧
    RESTCore.concatNonFinal (RESTCore.chunkedStreamEvents rs).1
      = String.join (RESTCore.consumedPieces rs) := by
  have hev := RESTCore.chunkedStreamEvents_terminating rs h
  have hfst := RESTCore.chunkedLoop_fst rs
  rw [hfst] at hev
  refine ⟨hev, ?_, ?_, ?_⟩
  · intro ev hmem hfalse
    rw [hev] at hmem
    rcases List.mem_append.mp hmem with hm | hm
    · exact (RESTCore.emitPieces_mem _ ev hm).2
    · simp at hm
      rw [hm] at hfalse
      simp at hfalse
  · rw [hev, List.filter_append, RESTCore.emitPieces_no_final]
    simp
  · rw [hev, RESTCore.concat_emitPieces]

/-- Witness for C1 at the spec example: chunks `"Hello "`, `"World"`,
`"!"` followed by the terminal chunk concatenate to `"Hello World!"`, and
exactly one final event closes the stream. -/
theorem chunked_stream_on_chunk_contract_witness :
    (RESTCore.chunkedLoop RESTCore.helloChunkedReads).2 = RESTCore.StreamEnd.completed ∧
    RESTCore.concatNonFinal (RESTCore.chunkedStreamEvents RESTCore.helloChunkedReads).1
      = "Hello World!" ∧
    ((RESTCore.chunkedStreamEvents RESTCore.helloChunkedReads).1.filter
        (fun ev => ev.final = true)) = [{ data := "", final := true }] := by
  have h := chunked_stream_on_chunk_contract RESTCore.helloChunkedReads (Or.inl rfl)
  refine ⟨rfl, ?_, h.2.2.1⟩
  rw [h.2.2.2]
  rfl

/-- C2 counterexample: a fixed-length read that returns three bytes
together with `end_of_stream` while the parser still expects more bytes.
The loop terminates without raising an error, but the claimed final
`done = true` invocation never happens: the only `on_chunk` call carries
`done = false`. -/
theorem fixed_stream_eos_counterexample :
    (RESTCore.fixedLoop RESTCore.fixedTruncatedReads).thrown = none ∧
    (RESTCore.fixedLoop RESTCore.fixedTruncatedReads).sawEos = true ∧
    (RESTCore.fixedLoop RESTCore.fixedTruncatedReads).starved = false ∧
    (RESTCore.fixedLoop RESTCore.fixedTruncatedReads).events
      = [{ data := "abc", final := false }] ∧
    (∀ ev ∈ (RESTCore.fixedLoop RESTCore.fixedTruncatedReads).events,
      ev.final = false) := by
  refine ⟨rfl, rfl, rfl, rfl, ?_⟩
  intro ev hev
  simp only [RESTCore.fixedLoop, RESTCore.fixedTruncatedReads] at hev
  simp at hev
  rw [hev.2]

/-- C2 (amended): in fixed-length streaming mode, whenever a read yields
bytes or the parser signals completion `on_chunk(bytes, done)` fires, and
on a body that completes normally (no end-of-stream, no error) `done` is
true on exactly the final invocation; an end-of-stream while bytes are
still expected is tolerated as a non-error termination (nothing is
thrown, the loop stops), but the final `done = true` invocation then
happens only if the parser reported completion on that read — at most the
last invocation carries `done = true`. -/
theorem fixed_stream_done_flag (rs : List RESTCore.FixedRead) :
    ((RESTCore.fixedLoop rs).thrown = none ∧ (RESTCore.fixedLoop rs).sawEos = false ∧
        (RESTCore.fixedLoop rs).starved = false →
      ∃ init d, (RESTCore.fixedLoop rs).events = init ++ [{ data := d, final := true }] ∧
        ∀ ev ∈ init, ev.final = false) ∧
    ((RESTCore.fixedLoop rs).sawEos = true → (RESTCore.fixedLoop rs).thrown = none) ∧
    (∀ ev ∈ (RESTCore.fixedLoop rs).events.dropLast, ev.final = false) := by
  induction rs with
  | nil =>
    refine ⟨?_, ?_, ?_⟩
    · rintro ⟨-, -, hstv⟩
      simp [RESTCore.fixedLoop] at hstv
    · intro hs
      simp [RESTCore.fixedLoop] at hs
    · intro ev hev
      simp [RESTCore.fixedLoop] at hev
  | cons r rs ih =>
    by_cases h1 : r.ec = RESTCore.Ec.endOfStream
    · refine ⟨?_, ?_, ?_⟩
      · rintro ⟨-, hsaw, -⟩
        simp [RESTCore.fixedLoop, h1] at hsaw
      · intro _
        simp [RESTCore.fixedLoop, h1]
      · intro ev hev
        by_cases hc : 0 < r.data.length ∨ r.doneAfter = true
        · simp [RESTCore.fixedLoop, h1, hc] at hev
        · simp [RESTCore.fixedLoop, h1, hc] at hev
    · by_cases h2 : r.ec ≠ RESTCore.Ec.ok ∧ r.ec ≠ RESTCore.Ec.needBuffer
      · refine ⟨?_, ?_, ?_⟩
        · rintro ⟨hth, -, -⟩
          simp [RESTCore.fixedLoop, h1, h2] at hth
        · intro hs
          simp [RESTCore.fixedLoop, h1, h2] at hs
        · intro ev hev
          simp [RESTCore.fixedLoop, h1, h2] at hev
      · by_cases h3 : r.doneAfter = true
        · refine ⟨?_, ?_, ?_⟩
          · intro _
            refine ⟨[], r.data, ?_, by simp⟩
            simp [RESTCore.fixedLoop, h1, h2, h3]
          · intro hs
            simp [RESTCore.fixedLoop, h1, h2, h3] at hs
          · intro ev hev
            simp [RESTCore.fixedLoop, h1, h2, h3] at hev
        · have hfields :
              RESTCore.fixedLoop (r :: rs)
                = { events :=
                      (if 0 < r.data.length then
                        [{ data := r.data, final := false }] else [])
                        ++ (RESTCore.fixedLoop rs).events,
                    thrown := (RESTCore.fixedLoop rs).thrown,
                    sawEos := (RESTCore.fixedLoop rs).sawEos,
                    starved := (RESTCore.fixedLoop rs).starved } := by
            simp [RESTCore.fixedLoop, h1, h2, h3]
          refine ⟨?_, ?_, ?_⟩
          · rintro ⟨hth, hsaw, hstv⟩
            rw [hfields] at hth hsaw hstv ⊢
            obtain ⟨init, d, hev, hinit⟩ := ih.1 ⟨hth, hsaw, hstv⟩
            refine ⟨(if 0 < r.data.length then
                [{ data := r.data, final := false }] else []) ++ init, d, ?_, ?_⟩
            · simp only [hev, List.append_assoc]
            · intro ev hmem
              rcases List.mem_append.mp hmem with hm | hm
              · by_cases hl : 0 < r.data.length
                · simp [hl] at hm
                  rw [hm]
                · simp [hl] at hm
              · exact hinit ev hm
          · intro hs
            rw [hfields] at hs ⊢
            exact ih.2.1 hs
          · intro ev hev
            rw [hfields] at hev
            rcases RESTCore.mem_of_mem_dropLast_append hev with hm | hm
            · by_cases hl : 0 < r.data.length
              · simp [hl] at hm
                rw [hm]
              · simp [hl] at hm
            · exact ih.2.2 ev hm

/-- Witness for the amended C2 at a body that completes normally in two
reads: the events are `("abc", false)` then `("de", true)`. -/
theorem fixed_stream_done_flag_witness :
    ((RESTCore.fixedLoop RESTCore.fixedOkReads).thrown = none ∧
      (RESTCore.fixedLoop RESTCore.fixedOkReads).sawEos = false ∧
      (RESTCore.fixedLoop RESTCore.fixedOkReads).starved = false) ∧
    (∃ init d,
      (RESTCore.fixedLoop RESTCore.fixedOkReads).events
        = init ++ [{ data := d, final := true }] ∧
      ∀ ev ∈ init, ev.final = false) := by
  have h := fixed_stream_done_flag RESTCore.fixedOkReads
  exact ⟨⟨rfl, rfl, rfl⟩, h.1 ⟨rfl, rfl, rfl⟩⟩

/-- C3: after every successful `Connection::request`, a response without
keep-alive closes the connection proactively with the explanatory reason;
otherwise the connection stays open, the previous close reason is cleared,
and a second request can be issued on the same connection. -/
theorem conn_request_keepalive_policy (c : RESTCore.Connection) (status : Nat) (ka : Bool)
    (hopen : c.isOpen = true) :
    (c.request (RESTCore.ExchangeOutcome.success status ka)).1 = Except.ok (status, ka) ∧
    (ka = false →
      (c.request (RESTCore.ExchangeOutcome.success status ka)).2.isOpen = false ∧
      (c.request (RESTCore.ExchangeOutcome.success status ka)).2.closeReason
        = RESTCore.serverClosedReason) ∧
    (ka = true →
      (c.request (RESTCore.ExchangeOutcome.success status ka)).2.isOpen = true ∧
      (c.request (RESTCore.ExchangeOutcome.success status ka)).2.closeReason = "" ∧
      ∀ st2 ka2,
        ((c.request (RESTCore.ExchangeOutcome.success status ka)).2.request
          (RESTCore.ExchangeOutcome.success st2 ka2)).1 = Except.ok (st2, ka2)) := by
  rw [RESTCore.request_open_success c status ka hopen]
  refine ⟨rfl, ?_, ?_⟩
  · intro hka
    subst hka
    rw [if_pos rfl]
    exact ⟨rfl, RESTCore.close_open_reason c _ hopen RESTCore.serverClosedReason_ne_empty⟩
  · intro hka
    subst hka
    rw [if_neg (by decide)]
    refine ⟨hopen, rfl, ?_⟩
    intro st2 ka2
    show (({ c with closeReason := "" } : RESTCore.Connection).request
      (RESTCore.ExchangeOutcome.success st2 ka2)).1 = Except.ok (st2, ka2)
    rw [RESTCore.request_open_success ({ c with closeReason := "" } : RESTCore.Connection)
      st2 ka2 hopen]

/-- Witness for C3 on a fresh connection: a keep-alive response leaves it
open with an empty close reason; a `Connection: close` response closes it. -/
theorem conn_request_keepalive_policy_witness :
    ((RESTCore.Connection.fresh.request (RESTCore.ExchangeOutcome.success 200 true)).2.isOpen
        = true ∧
      (RESTCore.Connection.fresh.request
        (RESTCore.ExchangeOutcome.success 200 true)).2.closeReason = "") ∧
    (RESTCore.Connection.fresh.request
      (RESTCore.ExchangeOutcome.success 200 false)).2.isOpen = false := by
  have h1 := conn_request_keepalive_policy RESTCore.Connection.fresh 200 true rfl
  have h2 := conn_request_keepalive_policy RESTCore.Connection.fresh 200 false rfl
  exact ⟨⟨(h1.2.2 rfl).1, (h1.2.2 rfl).2.1⟩, (h2.2.1 rfl).1⟩

/-- C4: every transport/protocol error inside `Connection::request` or
`Connection::stream_request` closes the connection with the diagnostic
message, re-raises the error carrying the same message, and the
end-of-stream diagnostic always differs from the generic one. -/
theorem conn_exchange_error_close_then_rethrow (c : RESTCore.Connection) (e : RESTCore.Ec)
    (hopen : c.isOpen = true) :
    (c.request (RESTCore.ExchangeOutcome.failure e)
        = (Except.error (RESTCore.ReqError.transport e (RESTCore.exchangeErrorMessage e)),
           c.close (RESTCore.exchangeErrorMessage e)) ∧
      (c.request (RESTCore.ExchangeOutcome.failure e)).2.isOpen = false ∧
      (c.request (RESTCore.ExchangeOutcome.failure e)).2.closeReason
        = RESTCore.exchangeErrorMessage e) ∧
    (c.streamRequest true (RESTCore.StreamExchange.headerFail e)
        = (RESTCore.StreamResult.errTransport e (RESTCore.streamErrorMessage e),
           c.close (RESTCore.streamErrorMessage e)) ∧
      (c.streamRequest true (RESTCore.StreamExchange.headerFail e)).2.closeReason
        = RESTCore.streamErrorMessage e) ∧
    (∀ status rs evs,
      RESTCore.chunkedStreamEvents rs = (evs, RESTCore.StreamEnd.errored e) →
      (c.streamRequest true (RESTCore.StreamExchange.body status
          (RESTCore.StreamBody.chunked rs))).2.closeReason
        = RESTCore.streamErrorMessage e) ∧
    (∀ status respKa rs,
      (RESTCore.fixedLoop rs).thrown = some e →
      (c.streamRequest true (RESTCore.StreamExchange.body status
          (RESTCore.StreamBody.fixed respKa rs))).2.closeReason
        = RESTCore.streamErrorMessage e) ∧
    (e ≠ RESTCore.Ec.endOfStream →
      RESTCore.exchangeErrorMessage RESTCore.Ec.endOfStream
        ≠ RESTCore.exchangeErrorMessage e ∧
      RESTCore.streamErrorMessage RESTCore.Ec.endOfStream
        ≠ RESTCore.streamErrorMessage e) := by
  refine ⟨?_, ?_, ?_, ?_, ?_⟩
  · rw [RESTCore.request_open_failure c e hopen]
    exact ⟨rfl, rfl,
      RESTCore.close_open_reason c _ hopen (RESTCore.exchangeErrorMessage_ne_empty e)⟩
  · rw [RESTCore.stream_headerFail c e hopen]
    exact ⟨rfl,
      RESTCore.close_open_reason c _ hopen (RESTCore.streamErrorMessage_ne_empty e)⟩
  · intro status rs evs hE
    rw [RESTCore.stream_chunked_err c status rs evs e hE hopen]
    exact RESTCore.close_open_reason c _ hopen (RESTCore.streamErrorMessage_ne_empty e)
  · intro status respKa rs hT
    rw [RESTCore.stream_fixed_thrown c status respKa rs e hT hopen]
    exact RESTCore.close_open_reason c _ hopen (RESTCore.streamErrorMessage_ne_empty e)
  · intro he
    constructor
    · rw [RESTCore.exchangeErrorMessage, if_pos rfl, RESTCore.peerClosedMessage,
        RESTCore.exchangeErrorMessage, if_neg he]
      exact RESTCore.string_append_ne_of_head
        "Peer closed the connection during the HTTP exchange (keep-alive unsupported or timed out): "
        "HTTP keep-alive exchange failed: "
        (RESTCore.Ec.message RESTCore.Ec.endOfStream) (RESTCore.Ec.message e)
        'P' 'H' rfl rfl (by decide)
    · rw [RESTCore.streamErrorMessage, if_pos rfl, RESTCore.peerClosedMessage,
        RESTCore.streamErrorMessage, if_neg he]
      exact RESTCore.string_append_ne_of_head
        "Peer closed the connection during the HTTP exchange (keep-alive unsupported or timed out): "
        "HTTP keep-alive stream failed: "
        (RESTCore.Ec.message RESTCore.Ec.endOfStream) (RESTCore.Ec.message e)
        'P' 'H' rfl rfl (by decide)

/-- Witness for C4 on a fresh connection and a generic transport error:
the connection ends closed, annotated with the generic diagnostic, which
differs from the peer-closed diagnostic. -/
theorem conn_exchange_error_close_then_rethrow_witness :
    (RESTCore.Connection.fresh.request
        (RESTCore.ExchangeOutcome.failure (RESTCore.Ec.other "boom"))).2.isOpen = false ∧
    (RESTCore.Connection.fresh.request
        (RESTCore.ExchangeOutcome.failure (RESTCore.Ec.other "boom"))).2.closeReason
      = RESTCore.exchangeErrorMessage (RESTCore.Ec.other "boom") ∧
    RESTCore.exchangeErrorMessage RESTCore.Ec.endOfStream
      ≠ RESTCore.exchangeErrorMessage (RESTCore.Ec.other "boom") := by
  have h := conn_exchange_error_close_then_rethrow RESTCore.Connection.fresh
    (RESTCore.Ec.other "boom") rfl
  exact ⟨h.1.2.1, h.1.2.2, (h.2.2.2.2 (by decide)).1⟩

/-- C5: a chunked streamed body always flags the connection non-reusable —
the connection ends closed no matter what keep-alive the response asked
for — while a fixed-length body that completed normally (no tolerated
end-of-stream) with a keep-alive response leaves the connection open with
a cleared close reason. -/
theorem chunked_stream_never_keepalive (c : RESTCore.Connection) (status : Nat)
    (hopen : c.isOpen = true) :
    (∀ rs evs,
      (RESTCore.chunkedStreamEvents rs = (evs, RESTCore.StreamEnd.completed) ∨
        RESTCore.chunkedStreamEvents rs = (evs, RESTCore.StreamEnd.eos)) →
      (c.streamRequest true (RESTCore.StreamExchange.body status
          (RESTCore.StreamBody.chunked rs))).2.isOpen = false ∧
      (c.streamRequest true (RESTCore.StreamExchange.body status
          (RESTCore.StreamBody.chunked rs))).2.closeReason
        = RESTCore.serverClosedReason) ∧
    (∀ rs,
      (RESTCore.fixedLoop rs).thrown = none →
      (RESTCore.fixedLoop rs).sawEos = false →
      (RESTCore.fixedLoop rs).starved = false →
      (c.streamRequest true (RESTCore.StreamExchange.body status
          (RESTCore.StreamBody.fixed true rs))).2.isOpen = true ∧
      (c.streamRequest true (RESTCore.StreamExchange.body status
          (RESTCore.StreamBody.fixed true rs))).2.closeReason = "") := by
  constructor
  · intro rs evs hE
    rw [RESTCore.stream_chunked_done c status rs evs hE hopen]
    exact ⟨rfl, RESTCore.close_open_reason c _ hopen RESTCore.serverClosedReason_ne_empty⟩
  · intro rs hT hS hStv
    rw [RESTCore.stream_fixed_ok c status true rs hT hStv hopen]
    have hkb : (if (RESTCore.fixedLoop rs).sawEos = true then false else true) = true := by
      rw [hS]
      decide
    rw [hkb, if_neg (by decide)]
    exact ⟨hopen, rfl⟩

/-- Witness for C5: the sample chunked stream closes a fresh connection;
the sample fixed-length stream with a keep-alive response leaves it open. -/
theorem chunked_stream_never_keepalive_witness :
    (RESTCore.Connection.fresh.streamRequest true (RESTCore.StreamExchange.body 200
        (RESTCore.StreamBody.chunked RESTCore.helloChunkedReads))).2.isOpen = false ∧
    (RESTCore.Connection.fresh.streamRequest true (RESTCore.StreamExchange.body 200
        (RESTCore.StreamBody.fixed true RESTCore.fixedOkReads))).2.isOpen = true := by
  have h := chunked_stream_never_keepalive RESTCore.Connection.fresh 200 rfl
  exact ⟨(h.1 RESTCore.helloChunkedReads _ (Or.inl rfl)).1,
    (h.2 RESTCore.fixedOkReads rfl rfl rfl).1⟩

/-- C9: over every operation sequence on a fresh connection the recorded
close reason is non-empty exactly when the connection is closed or some
prefix of the history had already closed it; `close()` with no reason on
an open connection records the default text `"Connection closed"`; and a
repeated default `close()` leaves the recorded state unchanged. -/
theorem conn_close_reason_invariant (ops : List RESTCore.ConnOp) :
    ((RESTCore.runOps RESTCore.Connection.fresh ops).closeReason ≠ ""
        ↔ ((RESTCore.runOps RESTCore.Connection.fresh ops).isOpen = false
            ∨ ∃ n, (RESTCore.runOps RESTCore.Connection.fresh (ops.take n)).isOpen = false)) ∧
    (∀ c : RESTCore.Connection, c.isOpen = true →
      (c.close "").closeReason = "Connection closed" ∧ (c.close "").isOpen = false) ∧
    (∀ c : RESTCore.Connection, (c.close "").close "" = c.close "") := by
  refine ⟨?_, ?_, ?_⟩
  · have hinv := RESTCore.runOps_inv RESTCore.Connection.fresh ops
      (by simp [RESTCore.ConnInv, RESTCore.Connection.fresh])
    constructor
    · intro hne
      exact Or.inl (hinv.mp hne)
    · intro hor
      rcases hor with hcl | ⟨n, hn⟩
      · exact hinv.mpr hcl
      · apply hinv.mpr
        have habs := RESTCore.runOps_closed_mono
          (RESTCore.runOps RESTCore.Connection.fresh (ops.take n)) (ops.drop n) hn
        rw [← RESTCore.runOps_append, List.take_append_drop] at habs
        exact habs
  · intro c hc
    exact ⟨by simp [RESTCore.Connection.close, hc], rfl⟩
  · intro c
    simp [RESTCore.Connection.close]

/-- Witness for C9: closing a fresh connection with no reason records
`"Connection closed"`, and the resulting history has a non-empty reason. -/
theorem conn_close_reason_invariant_witness :
    ((RESTCore.Connection.fresh.close "").closeReason = "Connection closed" ∧
      (RESTCore.Connection.fresh.close "").isOpen = false) ∧
    (RESTCore.runOps RESTCore.Connection.fresh [RESTCore.ConnOp.close ""]).closeReason
      ≠ "" := by
  have h := conn_close_reason_invariant [RESTCore.ConnOp.close ""]
  exact ⟨h.2.1 RESTCore.Connection.fresh rfl, h.1.mpr (Or.inl rfl)⟩

theorem ensureContentLength_preserves (r : HTTPServerHost.SResponse) :
    (HTTPServerHost.ensureContentLength r).status = r.status ∧
    (HTTPServerHost.ensureContentLength r).body = r.body ∧
    (HTTPServerHost.ensureContentLength r).keepAlive = r.keepAlive ∧
    (HTTPServerHost.ensureContentLength r).serverHeader = r.serverHeader := by
  by_cases h : 0 < r.body.length ∧ r.contentLength = none <;>
    simp [HTTPServerHost.ensureContentLength, h]

/-- C6: in single-request mode the session reads one request, builds the
default response (status 200, Server header, keep-alive disabled), hands
it to the callback together with the request and the client address,
fills in a computed Content-Length exactly when the callback set a
non-empty body without an explicit Content-Length, writes the response
the callback produced, and always shuts the socket down. -/
theorem http_session_single_request_contract (cb : HTTPServerHost.SCallback)
    (req : HTTPServerHost.SRequest) (client : String) :
    (HTTPServerHost.handle_http_session (some cb) req client).shutdownPerformed = true ∧
    (HTTPServerHost.defaultHttpResponse req.version).status = 200 ∧
    (HTTPServerHost.defaultHttpResponse req.version).serverHeader
      = some "HTTPServerHost/1.0" ∧
    (HTTPServerHost.defaultHttpResponse req.version).keepAlive = false ∧
    (HTTPServerHost.handle_http_session (some cb) req client).written
      = HTTPServerHost.ensureContentLength
          (cb req (HTTPServerHost.defaultHttpResponse req.version) client) ∧
    (HTTPServerHost.handle_http_session (some cb) req client).written.contentLength
      = (if 0 < (cb req (HTTPServerHost.defaultHttpResponse req.version) client).body.length ∧
            (cb req (HTTPServerHost.defaultHttpResponse req.version) client).contentLength
              = none
          then some (cb req (HTTPServerHost.defaultHttpResponse req.version) client).body.length
          else (cb req (HTTPServerHost.defaultHttpResponse req.version) client).contentLength) ∧
    (HTTPServerHost.handle_http_session (some cb) req client).written.status
      = (cb req (HTTPServerHost.defaultHttpResponse req.version) client).status ∧
    (HTTPServerHost.handle_http_session (some cb) req client).written.body
      = (cb req (HTTPServerHost.defaultHttpResponse req.version) client).body ∧
    (HTTPServerHost.handle_http_session (some cb) req client).written.keepAlive
      = (cb req (HTTPServerHost.defaultHttpResponse req.version) client).keepAlive := by
  have hpres := ensureContentLength_preserves
    (cb req (HTTPServerHost.defaultHttpResponse req.version) client)
  refine ⟨rfl, rfl, rfl, rfl, rfl, ?_, hpres.1, hpres.2.1, hpres.2.2.1⟩
  by_cases h : 0 < (cb req (HTTPServerHost.defaultHttpResponse req.version) client).body.length ∧
      (cb req (HTTPServerHost.defaultHttpResponse req.version) client).contentLength = none <;>
    simp [HTTPServerHost.handle_http_session, HTTPServerHost.ensureContentLength, h]

/-- C7: `stop()` empties both runtime lists after waking every running
listener and joining every listener thread; calling it again, or calling
it on a server with no listeners, performs no wakes and no joins and
leaves the (already empty) state unchanged — a no-op with no error
channel (wake failures are swallowed inside `stop` itself). -/
theorem server_stop_idempotent (s : HTTPServerHost.ServerState) :
    (HTTPServerHost.stop s).1 = HTTPServerHost.ServerState.empty ∧
    (HTTPServerHost.stop s).2.joins
      = s.httpRuntimes.length + s.httpsRuntimes.length ∧
    (HTTPServerHost.stop s).2.wakes
      = (s.httpRuntimes.filter (fun rt => rt.running)).length
        + (s.httpsRuntimes.filter (fun rt => rt.running)).length ∧
    HTTPServerHost.stop (HTTPServerHost.stop s).1
      = (HTTPServerHost.ServerState.empty, { wakes := 0, joins := 0 }) ∧
    HTTPServerHost.stop HTTPServerHost.ServerState.empty
      = (HTTPServerHost.ServerState.empty, { wakes := 0, joins := 0 }) := by
  exact ⟨rfl, rfl, rfl, rfl, rfl⟩

/-- C10: with no callback set, a session for a well-formed request still
writes the default response — status 200, Server identification header,
keep-alive disabled, empty body, no Content-Length computed — and shuts
the socket down; the absent callback is tolerated on both the HTTP and
the HTTPS path. -/
theorem session_no_callback_default_response (req : HTTPServerHost.SRequest)
    (client : String) :
    HTTPServerHost.handle_http_session none req client
      = { written := HTTPServerHost.defaultHttpResponse req.version,
          shutdownPerformed := true } ∧
    HTTPServerHost.handle_https_session true none req client
      = some { written := HTTPServerHost.defaultHttpsResponse req.version,
               shutdownPerformed := true } ∧
    (HTTPServerHost.defaultHttpResponse req.version).status = 200 ∧
    (HTTPServerHost.defaultHttpResponse req.version).keepAlive = false ∧
    (HTTPServerHost.defaultHttpResponse req.version).body = "" ∧
    (HTTPServerHost.defaultHttpResponse req.version).contentLength = none ∧
    (HTTPServerHost.defaultHttpResponse req.version).serverHeader
      = some "HTTPServerHost/1.0" ∧
    (HTTPServerHost.defaultHttpsResponse req.version).serverHeader
      = some "HTTPServerHost/1.0 (TLS)" := by
  exact ⟨rfl, rfl, rfl, rfl, rfl, rfl, rfl, rfl⟩

theorem matchEndAndQuote_nil (p : RESTCore.ParsedUrl) :
    RESTCore.matchEndAndQuote p [] = none :=
  rfl

/-- The compiled pattern (with its trailing literal quote after the
end-of-input anchor) matches no character sequence at all. -/
theorem parseUrlMatch_always_none (cs : List Char) :
    RESTCore.parseUrlMatch cs = none := by
  simp only [RESTCore.parseUrlMatch]
  repeat' split <;> try rfl

/-- Both `parseUrl` copies therefore reject every URL. -/
theorem parseUrl_always_error (url : String) :
    RESTCore.parseUrl url
      = Except.error ("Unsupported or invalid URL: " ++ url) := by
  simp [RESTCore.parseUrl, parseUrlMatch_always_none]

/-- C8 counterexample: `HTTPClient::Get` (host/port form, a stateless
one-shot helper) serialises its request without ever calling
`keep_alive(false)`, so the outgoing HTTP/1.1 request advertises
keep-alive — the claim says every one-shot helper disables it. Moreover
the URL forms never reach an exchange: the URL parser, whose raw-string
regex carries a stray trailing quote, rejects even `http://example.com/`. -/
theorem one_shot_keepalive_counterexample :
    (RESTCore.HTTPClientM.Get false "example.com" "80" "/" []).req.explicitKeepAlive
      = none ∧
    (RESTCore.HTTPClientM.Get false "example.com" "80" "/" []).req.wireKeepAlive = true ∧
    (RESTCore.Client.Get false "example.com" "80" "/" []).req.wireKeepAlive = false ∧
    RESTCore.parseUrl "http://example.com/"
      = Except.error ("Unsupported or invalid URL: " ++ "http://example.com/") := by
  exact ⟨rfl, rfl, rfl, rfl⟩

/-- C8 (amended): every stateless one-shot helper is the thin composition
of endpoint handling (URL parse for the URL forms — which in this build
rejects every URL because of the stray quote in the regex literal — or
the endpoint taken as given) with the shared one-shot exchange routine,
which performs exactly one write and one response read and always ends
with a shutdown of the transport; the `RESTCore::Client` helpers
additionally disable keep-alive on the outgoing request, while the
`HTTPClient` helpers leave the HTTP/1.1 keep-alive default in place. -/
theorem one_shot_helpers_thin_composition :
    (∀ url headers, RESTCore.Client.GetUrl url headers
        = (RESTCore.parseUrl url).map (fun p =>
            RESTCore.Client.oneShot p.https RESTCore.Verb.get p.host p.port p.target
              headers none none)) ∧
    (∀ url headers, RESTCore.Client.HeadUrl url headers
        = (RESTCore.parseUrl url).map (fun p =>
            RESTCore.Client.oneShot p.https RESTCore.Verb.head p.host p.port p.target
              headers none none)) ∧
    (∀ url headers, RESTCore.Client.DeleteUrl url headers
        = (RESTCore.parseUrl url).map (fun p =>
            RESTCore.Client.oneShot p.https RESTCore.Verb.delete_ p.host p.port p.target
              headers none none)) ∧
    (∀ url body ct headers, RESTCore.Client.PostUrl url body ct headers
        = (RESTCore.parseUrl url).map (fun p =>
            RESTCore.Client.oneShot p.https RESTCore.Verb.post p.host p.port p.target
              headers (some body) (some ct))) ∧
    (∀ url body ct headers, RESTCore.Client.PutUrl url body ct headers
        = (RESTCore.parseUrl url).map (fun p =>
            RESTCore.Client.oneShot p.https RESTCore.Verb.put p.host p.port p.target
              headers (some body) (some ct))) ∧
    (∀ https host port target headers,
      RESTCore.Client.Get https host port target headers
        = RESTCore.Client.oneShot https RESTCore.Verb.get host port target
            headers none none ∧
      RESTCore.Client.Head https host port target headers
        = RESTCore.Client.oneShot https RESTCore.Verb.head host port target
            headers none none ∧
      RESTCore.Client.Delete https host port target headers
        = RESTCore.Client.oneShot https RESTCore.Verb.delete_ host port target
            headers none none) ∧
    (∀ https host port target body ct headers,
      RESTCore.Client.Post https host port target body ct headers
        = RESTCore.Client.oneShot https RESTCore.Verb.post host port target
            headers (some body) (some ct) ∧
      RESTCore.Client.Put https host port target body ct headers
        = RESTCore.Client.oneShot https RESTCore.Verb.put host port target
            headers (some body) (some ct)) ∧
    (∀ https host port target headers,
      RESTCore.Client.GetStream https host port target headers true
        = Except.ok (RESTCore.Client.oneShot https RESTCore.Verb.get host port target
            headers none none)) ∧
    (∀ https host port target body ct headers,
      RESTCore.Client.PostStream https host port target body ct headers true
        = Except.ok (RESTCore.Client.oneShot https RESTCore.Verb.post host port target
            headers (some body) (some ct))) ∧
    (∀ https m host port target headers body ct,
      (RESTCore.Client.oneShot https m host port target headers body ct).req.explicitKeepAlive
          = some false ∧
      (RESTCore.Client.oneShot https m host port target headers body ct).req.wireKeepAlive
          = false ∧
      ((RESTCore.Client.oneShot https m host port target headers body ct).actions.filter
          (fun a => match a with
            | RESTCore.NetAction.writeRequest _ => true
            | _ => false)).length = 1 ∧
      ((RESTCore.Client.oneShot https m host port target headers body ct).actions.filter
          (fun a => a = RESTCore.NetAction.readResponse)).length = 1 ∧
      (RESTCore.Client.oneShot https m host port target headers body ct).actions.getLast?
          = some RESTCore.NetAction.shutdown) ∧
    (∀ https m host port target headers body ct,
      (RESTCore.HTTPClientM.oneShot https m host port target headers body ct).req.explicitKeepAlive
          = none ∧
      (RESTCore.HTTPClientM.oneShot https m host port target headers body ct).req.wireKeepAlive
          = true ∧
      ((RESTCore.HTTPClientM.oneShot https m host port target headers body ct).actions.filter
          (fun a => a = RESTCore.NetAction.readResponse)).length = 1 ∧
      (RESTCore.HTTPClientM.oneShot https m host port target headers body ct).actions.getLast?
          = some RESTCore.NetAction.shutdown) ∧
    (∀ url, RESTCore.parseUrl url
        = Except.error ("Unsupported or invalid URL: " ++ url)) := by
  refine ⟨fun _ _ => rfl, fun _ _ => rfl, fun _ _ => rfl, fun _ _ _ _ => rfl,
    fun _ _ _ _ => rfl, fun _ _ _ _ _ => ⟨rfl, rfl, rfl⟩,
    fun _ _ _ _ _ _ _ => ⟨rfl, rfl⟩, fun _ _ _ _ _ => rfl, fun _ _ _ _ _ _ _ => rfl,
    ?_, ?_, parseUrl_always_error⟩
  · intro https m host port target headers body ct
    refine ⟨rfl, rfl, ?_, ?_, ?_⟩ <;>
      cases https <;>
        simp [RESTCore.Client.oneShot, RESTCore.Client.oneShotActions]
  · intro https m host port target headers body ct
    refine ⟨rfl, rfl, ?_, ?_⟩ <;>
      cases https <;>
        simp [RESTCore.HTTPClientM.oneShot, RESTCore.Client.oneShotActions]
